import Mathlib

/-!
# OceanAware Guardian — verification of the hazard-aggregation core

The repository ships only black-box HTTP probes (`testsprite_tests/TC001` …
`TC010`); the geospatial hazard-aggregation and crisis-alerting engine the
probes exercise is not present in the sources. Following the specification,
every component below is therefore modelled from the spec's own description:
the spatial index, report ingestion, the fire-feed store, the weather cache,
the risk-fusion engine, the crisis state machine and the alert store.
Coordinates are embedded as rationals (the probes send exact decimal
literals); great-circle distance, which needs trigonometry, lives in `ℝ`;
wall-clock time is an abstract `ℕ` counter of hours (crisis scoring) or
seconds (weather cache), and request handling is sequential state passing,
which realises the spec's read-your-writes requirement directly.
-/

/-- A geographic point: latitude and longitude in decimal degrees. -/
structure Coord where
  lat : ℚ
  lng : ℚ
deriving DecidableEq

/-- Modelled from the spec: "deterministic, multi-level spatial identifier
derived from (latitude, longitude) at fixed precision tiers (e.g.,
region/cell/sub-cell)". The three tiers floor the coordinates at 1°, 0.1°
and 0.01° precision. -/
structure PartitionKey where
  region : ℤ × ℤ
  cell : ℤ × ℤ
  sub : ℤ × ℤ
deriving DecidableEq

/-- Modelled from the spec: `partitionKeyOf(lat,lng) -> PartitionKey`, a pure
function of the coordinates at fixed precision tiers. -/
def partitionKeyOf (lat lng : ℚ) : PartitionKey :=
  { region := (⌊lat⌋, ⌊lng⌋)
  , cell := (⌊lat * 10⌋, ⌊lng * 10⌋)
  , sub := (⌊lat * 100⌋, ⌊lng * 100⌋) }

/-- Report / alert severity levels. -/
inductive Severity where
  | low
  | medium
  | high
  | critical
deriving DecidableEq

/-- Modelled from the spec: "severityWeight(low=1, medium=2, high=4,
critical=8)". -/
def severityWeight : Severity → ℚ
  | .low => 1
  | .medium => 2
  | .high => 4
  | .critical => 8

/-- A citizen-submitted hazard report, as stored after ingestion. -/
structure Report where
  id : ℕ
  location : Coord
  description : String
  hazardType : String
  severity : Severity
  urgentLevel : Option Severity
  reporterName : Option String
  reporterEmail : Option String
  partitionKey : PartitionKey
  createdAt : ℕ
deriving DecidableEq

/-- A satellite fire detection, as stored by the fire-feed store. -/
structure FireDetection where
  id : ℕ
  location : Coord
  confidence : ℚ
  acqDate : String
  acqTime : String
  brightness : ℚ
  scan : ℚ
  track : ℚ
  satellite : String
  state : String
  partitionKey : PartitionKey
  detectedAt : ℕ
deriving DecidableEq

/-- Crisis-controller configuration. Modelled from the spec: the exact
thresholds `T_elevated`, `T_crisis`, the decay half-life and the cool-down
are "treated as configuration with the stated defaults". Times are in
hours. -/
structure CrisisConfig where
  tElevated : ℚ
  tCrisis : ℚ
  halfLifeHours : ℕ
  retentionHours : ℕ
  cooldownHours : ℕ
deriving DecidableEq

/-- The default configuration: half-life 12 hours as the spec suggests; the
thresholds are below the critical severity weight 8 so that a single fresh
critical report raises a normal partition. -/
def defaultCrisisConfig : CrisisConfig :=
  { tElevated := 4, tCrisis := 10, halfLifeHours := 12
  , retentionHours := 48, cooldownHours := 6 }

/-- Modelled from the spec: "decay is exponential over a fixed half-life
(e.g., 12 hours); entries older than the retention window contribute
zero". The exponent counts whole half-lives elapsed. -/
def decay (cfg : CrisisConfig) (ageHours : ℕ) : ℚ :=
  if ageHours < cfg.retentionHours then
    (1 / 2 : ℚ) ^ (ageHours / cfg.halfLifeHours)
  else 0

/-- Modelled from the spec: "each Report … contributes
`severityWeight * decay(age)`". -/
def reportContribution (cfg : CrisisConfig) (now : ℕ) (r : Report) : ℚ :=
  severityWeight r.severity * decay cfg (now - r.createdAt)

/-- Modelled from the spec: a fire detection also contributes
`severityWeight * decay(age)`; a detection carries no severity field, so its
severity is read off its confidence in bands (≥ 80 high, ≥ 50 medium,
otherwise low). -/
def fireSeverity (f : FireDetection) : Severity :=
  if 80 ≤ f.confidence then .high
  else if 50 ≤ f.confidence then .medium
  else .low

/-- Decayed score contribution of one fire detection. -/
def fireContribution (cfg : CrisisConfig) (now : ℕ) (f : FireDetection) : ℚ :=
  severityWeight (fireSeverity f) * decay cfg (now - f.detectedAt)

/-- Modelled from the spec: "Score is a decayed weighted sum" of the reports
and fire detections belonging to the partition. -/
def partitionScore (cfg : CrisisConfig) (now : ℕ) (reports : List Report)
    (fires : List FireDetection) (pk : PartitionKey) : ℚ :=
  ((reports.filter (fun r => r.partitionKey == pk)).map
      (reportContribution cfg now)).sum
  + ((fires.filter (fun f => f.partitionKey == pk)).map
      (fireContribution cfg now)).sum

/-- An active report of the partition carrying `urgentLevel = critical`
("any single active report carries `urgentLevel=critical`"); active means
inside the retention window. -/
def isActiveUrgent (cfg : CrisisConfig) (now : ℕ) (pk : PartitionKey)
    (r : Report) : Bool :=
  r.partitionKey == pk && r.urgentLevel == some .critical
    && now - r.createdAt < cfg.retentionHours

/-- Whether some active report of the partition is urgent-critical. -/
def hasUrgentCritical (cfg : CrisisConfig) (now : ℕ) (reports : List Report)
    (pk : PartitionKey) : Bool :=
  reports.any (isActiveUrgent cfg now pk)

/-- The three crisis states of a partition. -/
inductive CrisisState where
  | normal
  | elevated
  | crisis
deriving DecidableEq

/-- Per-partition crisis record: the current state plus, while in `crisis`,
the time since when the score has stayed below `T_crisis` (for the
cool-down). -/
structure CrisisRecord where
  state : CrisisState
  belowSince : Option ℕ
deriving DecidableEq

/-- Modelled from the spec's transition rules: "normal→elevated when score ≥
T_elevated; elevated→crisis when score ≥ T_crisis OR any single active
report carries `urgentLevel=critical`; crisis→elevated when score falls
below T_crisis for a sustained cool-down period; elevated→normal
symmetrically below T_elevated" — one idempotent re-evaluation step. -/
def stepCrisis (cfg : CrisisConfig) (now : ℕ) (rec : CrisisRecord)
    (score : ℚ) (urgent : Bool) : CrisisRecord :=
  match rec.state with
  | .normal =>
      if cfg.tElevated ≤ score then ⟨.elevated, none⟩ else ⟨.normal, none⟩
  | .elevated =>
      if cfg.tCrisis ≤ score ∨ urgent = true then ⟨.crisis, none⟩
      else if score < cfg.tElevated then ⟨.normal, none⟩
      else ⟨.elevated, none⟩
  | .crisis =>
      if score < cfg.tCrisis then
        match rec.belowSince with
        | none => ⟨.crisis, some now⟩
        | some t0 =>
            if cfg.cooldownHours ≤ now - t0 then ⟨.elevated, none⟩
            else ⟨.crisis, some t0⟩
      else ⟨.crisis, none⟩

/-- Folding a list of re-evaluation inputs (time, score, urgency flag)
through the transition function. -/
def iterSteps (cfg : CrisisConfig) (steps : List (ℕ × ℚ × Bool))
    (rec : CrisisRecord) : CrisisRecord :=
  match steps with
  | [] => rec
  | (now, score, urgent) :: rest =>
      iterSteps cfg rest (stepCrisis cfg now rec score urgent)

/-- A public alert. `endTime = none` means the alert is still open; closing
an alert sets `endTime`. -/
structure Alert where
  id : ℕ
  title : String
  description : String
  severity : Severity
  startTime : ℕ
  endTime : Option ℕ
  location : Coord
  type : String
  partitionKey : PartitionKey
deriving DecidableEq

/-- An alert is open while its `endTime` is unset. -/
def isOpen (a : Alert) : Bool :=
  a.endTime.isNone

/-- The alert store: the persisted alerts plus the id counter. -/
structure AlertStore where
  alerts : List Alert
  nextAlertId : ℕ
deriving DecidableEq

/-- The empty alert store. -/
def emptyAlertStore : AlertStore :=
  { alerts := [], nextAlertId := 0 }

/-- Whether alert `a` is the open alert of partition `pk`. -/
def isOpenFor (pk : PartitionKey) (a : Alert) : Bool :=
  a.partitionKey == pk && isOpen a

/-- Modelled from the spec: `openOrRefresh(partitionKey, severity,
descriptor) -> Alert` — "refreshing an existing open alert updates
severity/description rather than duplicating"; otherwise a fresh open alert
is created. -/
def openOrRefresh (s : AlertStore) (pk : PartitionKey) (sev : Severity)
    (title descr : String) (loc : Coord) (now : ℕ) : AlertStore :=
  if s.alerts.any (isOpenFor pk) then
    { s with alerts := s.alerts.map (fun a =>
        if isOpenFor pk a then { a with severity := sev, description := descr }
        else a) }
  else
    { alerts := s.alerts ++
        [{ id := s.nextAlertId, title := title, description := descr
         , severity := sev, startTime := now, endTime := none
         , location := loc, type := "crisis", partitionKey := pk }]
    , nextAlertId := s.nextAlertId + 1 }

/-- Modelled from the spec: `close(partitionKey)` sets `endTime` on the
partition's open alert. -/
def closeAlert (s : AlertStore) (pk : PartitionKey) (now : ℕ) : AlertStore :=
  { s with alerts := s.alerts.map (fun a =>
      if isOpenFor pk a then { a with endTime := some now } else a) }

/-- Severity rank used to order alerts (critical highest). -/
def severityRank : Severity → ℕ
  | .low => 0
  | .medium => 1
  | .high => 2
  | .critical => 3

/-- "ordered by severity descending then recency": `a` precedes `b` when its
severity ranks at least as high, recency (later `startTime`) breaking
ties. -/
def alertBefore (a b : Alert) : Bool :=
  decide (severityRank b.severity < severityRank a.severity)
    || (severityRank b.severity == severityRank a.severity
        && decide (b.startTime ≤ a.startTime))

/-- Modelled from the spec: `currentAlerts(location) -> sequence of Alert`
— the open alerts of the location's partition, ordered by severity
descending then recency. -/
def currentAlerts (s : AlertStore) (loc : Coord) : List Alert :=
  (s.alerts.filter (isOpenFor (partitionKeyOf loc.lat loc.lng))).mergeSort
    alertBefore

/-- Number of open alerts the store holds for a partition. -/
def openCount (s : AlertStore) (pk : PartitionKey) : ℕ :=
  s.alerts.countP (isOpenFor pk)

/-- The alert stores reachable from the empty store through the two store
operations. -/
inductive AlertReachable : AlertStore → Prop where
  | init : AlertReachable emptyAlertStore
  | openOrRefresh {s} (pk : PartitionKey) (sev : Severity)
      (title descr : String) (loc : Coord) (now : ℕ) :
      AlertReachable s →
      AlertReachable (openOrRefresh s pk sev title descr loc now)
  | close {s} (pk : PartitionKey) (now : ℕ) :
      AlertReachable s → AlertReachable (closeAlert s pk now)

/-- Great-circle (haversine) distance in kilometres between two coordinates,
with Earth radius 6371 km, exactly the formula the repository's probes
`TC002` and `TC006` recompute:
`a = sin²(Δlat/2) + cos(lat1)·cos(lat2)·sin²(Δlng/2)`,
`d = 2·R·arcsin(√a)`, angles converted to radians. -/
noncomputable def haversineKm (p q : Coord) : ℝ :=
  let rad : ℚ → ℝ := fun d => (d : ℝ) * Real.pi / 180
  let dlat := rad (q.lat - p.lat)
  let dlng := rad (q.lng - p.lng)
  let a := Real.sin (dlat / 2) ^ 2
    + Real.cos (rad p.lat) * Real.cos (rad q.lat) * Real.sin (dlng / 2) ^ 2
  2 * 6371 * Real.arcsin (Real.sqrt a)

/-- The spatial cell of a coordinate: its partition key. -/
def cellOf (p : Coord) : PartitionKey :=
  partitionKeyOf p.lat p.lng

/-- Modelled from the spec: the candidate cells of a radius query are "the
set of partition-key prefixes whose cells intersect the query circle". A
cell is the set of coordinates assigned to its key, and it intersects the
circle when some coordinate of the cell lies within `radiusKm` of the
center. -/
def cellIntersectsCircle (k : PartitionKey) (center : Coord)
    (radiusKm : ℝ) : Prop :=
  ∃ p : Coord, cellOf p = k ∧ haversineKm center p ≤ radiusKm

/-- Modelled from the spec: `withinRadius(center, radiusKm, collection)` —
keep the entries living in a candidate cell, "then for each candidate entry
verify true great-circle distance (haversine) against `radiusKm`". The
result is the set of entries the query returns; `locOf` projects an entry of
any of the indexed collections to its coordinate. -/
def withinRadius {α : Type} (locOf : α → Coord) (center : Coord)
    (radiusKm : ℝ) (entries : List α) : Set α :=
  { e | e ∈ entries ∧ cellIntersectsCircle (cellOf (locOf e)) center radiusKm
      ∧ haversineKm center (locOf e) ≤ radiusKm }

/-- The brute-force reference scan: every stored entry whose haversine
distance from the center is at most the radius. -/
def bruteForceScan {α : Type} (locOf : α → Coord) (center : Coord)
    (radiusKm : ℝ) (entries : List α) : Set α :=
  { e | e ∈ entries ∧ haversineKm center (locOf e) ≤ radiusKm }

/-- Modelled from the spec: `byState(stateName) -> sequence` — the stored
fire detections whose administrative-region field matches the requested
name case-insensitively ("case-insensitive exact match"). -/
def byState (store : List FireDetection) (stateName : String) :
    List FireDetection :=
  store.filter (fun f => f.state.toLower == stateName.toLower)

/-- A cached point-weather observation. -/
structure WeatherSnapshot where
  temperature : ℚ
  humidity : ℚ
  windSpeed : ℚ
  description : String
  timestamp : ℕ
deriving DecidableEq

/-- The weather endpoint's error taxonomy: `MissingParameterError` when the
location is absent, `UpstreamUnavailableError` when the provider fails and
nothing was ever cached. -/
inductive WeatherError where
  | missingParameter
  | upstreamUnavailable
deriving DecidableEq

/-- The weather cache: one cached value (with its fetch time, in seconds)
per coarse location bucket. -/
structure WeatherState where
  cache : PartitionKey → Option (WeatherSnapshot × ℕ)

/-- Successful weather response: the snapshot, a staleness marker, and the
metadata echoing the caller's location (`metadata.userLocation`). -/
structure WeatherResponse where
  success : Bool
  weather : WeatherSnapshot
  stale : Bool
  userLocation : Coord
deriving DecidableEq

/-- Cache expiry: 10 minutes, in seconds. -/
def weatherExpirySeconds : ℕ := 600

/-- Modelled from the spec: `currentWeather(location) -> WeatherSnapshot`.
"Fails with `MissingParameterError` if location is absent. Maintains one
cached value per coarse location bucket with an expiry …; on expiry, fetches
fresh data from an external weather provider …; on provider failure, serves
the last known value annotated as stale …, unless no value has ever been
cached (then fails with `UpstreamUnavailableError`)." The external provider
is passed as an oracle function; the call returns the response (or error)
together with the updated cache state. -/
def currentWeather (provider : Coord → Option WeatherSnapshot) (now : ℕ)
    (lat lng : Option ℚ) (st : WeatherState) :
    Except WeatherError WeatherResponse × WeatherState :=
  match lat, lng with
  | none, _ => (.error .missingParameter, st)
  | some _, none => (.error .missingParameter, st)
  | some la, some ln =>
      let loc : Coord := ⟨la, ln⟩
      let bucket := partitionKeyOf la ln
      match st.cache bucket with
      | some (snap, fetchedAt) =>
          if now - fetchedAt < weatherExpirySeconds then
            (.ok ⟨true, snap, false, loc⟩, st)
          else
            match provider loc with
            | some fresh =>
                (.ok ⟨true, fresh, false, loc⟩,
                 ⟨fun k => if k = bucket then some (fresh, now)
                   else st.cache k⟩)
            | none => (.ok ⟨true, snap, true, loc⟩, st)
      | none =>
          match provider loc with
          | some fresh =>
              (.ok ⟨true, fresh, false, loc⟩,
               ⟨fun k => if k = bucket then some (fresh, now)
                 else st.cache k⟩)
          | none => (.error .upstreamUnavailable, st)

/-- Clamping to the unit interval: "Confidence is always clamped to
[0,1]". -/
def clamp01 (x : ℚ) : ℚ :=
  max 0 (min 1 x)

/-- The signals the risk-fusion engine reads: nearby fire detections, the
latest weather snapshot, and the recent reports of the partition. -/
structure FusionInputs where
  fires : List FireDetection
  weather : Option WeatherSnapshot
  reports : List Report
deriving DecidableEq

/-- Outcome of the call to the external scoring oracle: a score, a timeout,
or an error. -/
inductive OracleOutcome where
  | ok (score : ℚ)
  | timeout
  | error
deriving DecidableEq

/-- Modelled from the spec: weather risk indicators for the heuristic —
hotter, drier, windier conditions raise the score. -/
def weatherRisk (w : WeatherSnapshot) : ℚ :=
  clamp01 (w.temperature / 50) + clamp01 ((100 - w.humidity) / 100)
    + clamp01 (w.windSpeed / 40)

/-- Modelled from the spec: the "deterministic heuristic score (weighted
combination of fire-detection count/confidence, report severity, and
weather risk indicators)", clamped to the unit interval. -/
def heuristicConfidence (inp : FusionInputs) : ℚ :=
  clamp01 ((inp.fires.map (fun f => clamp01 (f.confidence / 100))).sum / 10
    + (inp.reports.map (fun r => severityWeight r.severity)).sum / 80
    + (match inp.weather with
       | some w => weatherRisk w / 6
       | none => 0))

/-- The assessment the engine returns for `POST /ai-analysis`. -/
structure RiskAssessment where
  success : Bool
  location : Coord
  analysisType : String
  confidence : ℚ
deriving DecidableEq

/-- Modelled from the spec: `assess(location, analysisType) ->
RiskAssessment`. The oracle outcome is passed explicitly; on timeout or
error the engine "falls back to a deterministic heuristic score"; the
confidence is clamped to [0,1] in every case. -/
def assess (inp : FusionInputs) (oracle : OracleOutcome) (loc : Coord)
    (analysisType : String) : RiskAssessment :=
  let conf := match oracle with
    | .ok s => clamp01 s
    | .timeout => heuristicConfidence inp
    | .error => heuristicConfidence inp
  { success := true, location := loc, analysisType := analysisType
  , confidence := conf }

/-- Fusion-engine timing configuration, in seconds. -/
structure FusionConfig where
  oracleTimeoutSeconds : ℚ
  latencyBoundSeconds : ℚ
deriving DecidableEq

/-- The configured bound: the oracle call is cut off after 4 s, and the
observed latency contract is 5 s. -/
def defaultFusionConfig : FusionConfig :=
  { oracleTimeoutSeconds := 4, latencyBoundSeconds := 5 }

/-- Modelled from the spec: the oracle call "is the only operation expected
to block on a remote dependency; it carries an explicit timeout", so in the
abstract time model the engine waits on the oracle for at most the
configured timeout, and the local heuristic work is free. -/
def assessLatency (cfg : FusionConfig) (oracleLatencySeconds : ℚ) : ℚ :=
  min oracleLatencySeconds cfg.oracleTimeoutSeconds

/-- The aggregate state the ingestion pipeline threads: stored reports and
fire detections, the per-partition crisis records, and the alert store. -/
structure SystemState where
  reports : List Report
  fires : List FireDetection
  crisis : PartitionKey → CrisisRecord
  alertStore : AlertStore
  nextReportId : ℕ

/-- The initial system state: nothing stored, every partition `normal`. -/
def initialSystemState : SystemState :=
  { reports := [], fires := [], crisis := fun _ => ⟨.normal, none⟩
  , alertStore := emptyAlertStore, nextReportId := 0 }

/-- The alert severity mirroring a crisis state ("severity mirrored from
the state"): `elevated` opens a `high` alert, `crisis` a `critical` one. -/
def mirroredSeverity : CrisisState → Severity
  | .normal => .low
  | .elevated => .high
  | .crisis => .critical

/-- Modelled from the spec: one idempotent crisis re-evaluation of a
partition — recompute the decayed score and the urgent flag, step the state
machine, then "on entering elevated/crisis … open or refresh an Alert for
the partition with severity mirrored from the state; on returning to
normal … close the Alert". -/
def reevaluatePartition (cfg : CrisisConfig) (now : ℕ) (st : SystemState)
    (pk : PartitionKey) (loc : Coord) : SystemState :=
  let score := partitionScore cfg now st.reports st.fires pk
  let urgent := hasUrgentCritical cfg now st.reports pk
  let next := stepCrisis cfg now (st.crisis pk) score urgent
  let st' := { st with crisis := fun k => if k = pk then next else st.crisis k }
  match next.state with
  | .normal =>
      { st' with alertStore := closeAlert st'.alertStore pk now }
  | .elevated =>
      let store := openOrRefresh st'.alertStore pk Severity.high
        "Elevated hazard risk" "Elevated hazard conditions in your area"
        loc now
      { st' with alertStore := store }
  | .crisis =>
      let store := openOrRefresh st'.alertStore pk Severity.critical
        "Crisis alert" "Crisis conditions in your area" loc now
      { st' with alertStore := store }

/-- The raw submission payload of `POST /community-report`. -/
structure ReportInput where
  location : Option Coord
  description : String
  hazardType : String
  severity : Severity
  urgentLevel : Option Severity
  reporterName : Option String
  reporterEmail : Option String
deriving DecidableEq

/-- What `POST /community-report` answers on success:
`{success, reportId, hierarchicalPartition, message}`. -/
structure SubmitResult where
  success : Bool
  reportId : String
  hierarchicalPartition : PartitionKey
  message : String
deriving DecidableEq

/-- Ingestion error taxonomy: `ValidationError` for malformed or missing
required input. -/
inductive IngestError where
  | validationError
deriving DecidableEq

/-- Modelled from the spec: a report is a critical signal when it has
high/critical severity or `urgentLevel=critical`; such a report "triggers an
immediate (not batched) crisis re-evaluation for its partition". -/
def isCriticalSignal (inp : ReportInput) : Bool :=
  inp.severity == .high || inp.severity == .critical
    || inp.urgentLevel == some .critical

/-- Modelled from the spec: `POST /community-report` ingestion. "Validates
required fields …; fails with `ValidationError` if location or description
is missing. On success: assigns id, computes partitionKey, timestamps,
stores the Report, and notifies CrisisController"; a critical signal
triggers the immediate re-evaluation, whose resulting alert is visible in
the state returned alongside the response (read-your-writes). -/
def submitReport (cfg : CrisisConfig) (now : ℕ) (inp : ReportInput)
    (st : SystemState) : Except IngestError (SubmitResult × SystemState) :=
  match inp.location with
  | none => .error .validationError
  | some loc =>
      if inp.description = "" ∨ inp.hazardType = "" then
        .error .validationError
      else
        let pk := partitionKeyOf loc.lat loc.lng
        let r : Report :=
          { id := st.nextReportId, location := loc
          , description := inp.description, hazardType := inp.hazardType
          , severity := inp.severity, urgentLevel := inp.urgentLevel
          , reporterName := inp.reporterName
          , reporterEmail := inp.reporterEmail
          , partitionKey := pk, createdAt := now }
        let newReports := st.reports ++ [r]
        let st1 := { st with reports := newReports, nextReportId := st.nextReportId + 1 }
        let st2 := if isCriticalSignal inp then
            reevaluatePartition cfg now st1 pk loc
          else st1
        .ok ({ success := true, reportId := "report-" ++ toString r.id
             , hierarchicalPartition := pk
             , message := "Community report submitted successfully" }, st2)

/-- A sample partition key used to exercise the alert store. -/
def demoPk : PartitionKey := partitionKeyOf 34 (-118)

/-- The sample location matching `demoPk`. -/
def demoLoc : Coord := ⟨34, -118⟩

/-- A sample store holding one open alert, reached by one `openOrRefresh`
from the empty store. -/
def demoStore : AlertStore :=
  openOrRefresh emptyAlertStore demoPk .high "t" "d" demoLoc 0

/-! ## Basic lemmas about the models -/

/-- Severity weights are nonnegative. -/
theorem severityWeight_nonneg (s : Severity) : 0 ≤ severityWeight s := by
  cases s <;> norm_num [severityWeight]

/-- The decay factor is nonnegative. -/
theorem decay_nonneg (cfg : CrisisConfig) (ageHours : ℕ) :
    0 ≤ decay cfg ageHours := by
  unfold decay
  split
  · positivity
  · exact le_refl 0

/-- A fresh entry inside the retention window decays by nothing. -/
theorem decay_zero (cfg : CrisisConfig) (h : 0 < cfg.retentionHours) :
    decay cfg 0 = 1 := by
  unfold decay
  rw [if_pos h, Nat.zero_div, pow_zero]

/-- Report contributions to the partition score are nonnegative. -/
theorem reportContribution_nonneg (cfg : CrisisConfig) (now : ℕ)
    (r : Report) : 0 ≤ reportContribution cfg now r :=
  mul_nonneg (severityWeight_nonneg _) (decay_nonneg _ _)

/-- Fire contributions to the partition score are nonnegative. -/
theorem fireContribution_nonneg (cfg : CrisisConfig) (now : ℕ)
    (f : FireDetection) : 0 ≤ fireContribution cfg now f :=
  mul_nonneg (severityWeight_nonneg _) (decay_nonneg _ _)

/-- A critical report created right now puts at least its full weight 8 into
its partition's score. -/
theorem partitionScore_ge_of_fresh_critical (cfg : CrisisConfig) (now : ℕ)
    (reports : List Report) (fires : List FireDetection) (pk : PartitionKey)
    (r : Report) (hmem : r ∈ reports) (hpk : r.partitionKey = pk)
    (hsev : r.severity = .critical) (hage : r.createdAt = now)
    (hret : 0 < cfg.retentionHours) :
    8 ≤ partitionScore cfg now reports fires pk := by
  unfold partitionScore
  have hrw : reportContribution cfg now r = 8 := by
    unfold reportContribution
    rw [hsev, hage, Nat.sub_self, decay_zero cfg hret]
    norm_num [severityWeight]
  have hmemf : r ∈ reports.filter (fun x => x.partitionKey == pk) := by
    rw [List.mem_filter]
    exact ⟨hmem, by simp [hpk]⟩
  have hmemmap : reportContribution cfg now r ∈
      (reports.filter (fun x => x.partitionKey == pk)).map
        (reportContribution cfg now) :=
    List.mem_map_of_mem _ hmemf
  have h8 : (8 : ℚ) ≤ ((reports.filter (fun x => x.partitionKey == pk)).map
      (reportContribution cfg now)).sum := by
    rw [← hrw]
    refine List.single_le_sum ?_ _ hmemmap
    intro x hx
    obtain ⟨y, _, rfl⟩ := List.mem_map.mp hx
    exact reportContribution_nonneg _ _ _
  have hf : (0 : ℚ) ≤ ((fires.filter (fun f => f.partitionKey == pk)).map
      (fireContribution cfg now)).sum := by
    refine List.sum_nonneg ?_
    intro x hx
    obtain ⟨y, _, rfl⟩ := List.mem_map.mp hx
    exact fireContribution_nonneg _ _ _
  linarith

/-- Clamped values are nonnegative. -/
theorem clamp01_nonneg (x : ℚ) : 0 ≤ clamp01 x :=
  le_max_left 0 _

/-- Clamped values are at most one. -/
theorem clamp01_le_one (x : ℚ) : clamp01 x ≤ 1 :=
  max_le (by norm_num) (min_le_left 1 x)

/-- One transition out of `crisis` lands in `crisis` or `elevated`. -/
theorem stepCrisis_from_crisis (cfg : CrisisConfig) (now : ℕ)
    (rec : CrisisRecord) (score : ℚ) (urgent : Bool)
    (hc : rec.state = .crisis) :
    (stepCrisis cfg now rec score urgent).state = .crisis ∨
      (stepCrisis cfg now rec score urgent).state = .elevated := by
  obtain ⟨s, b⟩ := rec
  cases s with
  | normal => cases hc
  | elevated => cases hc
  | crisis =>
      by_cases h1 : score < cfg.tCrisis
      · cases b with
        | none => simp [stepCrisis, h1]
        | some t0 =>
            by_cases h2 : cfg.cooldownHours ≤ now - t0
            · simp [stepCrisis, h1, h2]
            · simp [stepCrisis, h1, h2]
      · simp [stepCrisis, h1]

/-- When the score reaches `T_elevated` and an urgent-critical report is
active, one re-evaluation step lands in `elevated` or `crisis` from any
state. -/
theorem stepCrisis_active (cfg : CrisisConfig) (now : ℕ)
    (rec : CrisisRecord) (score : ℚ) (urgent : Bool)
    (hs : cfg.tElevated ≤ score) (hu : urgent = true) :
    (stepCrisis cfg now rec score urgent).state = .elevated ∨
      (stepCrisis cfg now rec score urgent).state = .crisis := by
  obtain ⟨s, b⟩ := rec
  cases s with
  | normal =>
      unfold stepCrisis
      dsimp only
      rw [if_pos hs]
      left; rfl
  | elevated =>
      unfold stepCrisis
      dsimp only
      rw [if_pos (Or.inr hu)]
      right; rfl
  | crisis =>
      rcases stepCrisis_from_crisis cfg now ⟨.crisis, b⟩ score urgent rfl
        with h | h
      · right; exact h
      · left; exact h

/-- A trace that starts in `crisis` and ends in `normal` passes through
`elevated`: some prefix of the inputs already leaves the controller in
`elevated`. -/
theorem iterSteps_crisis_to_normal (cfg : CrisisConfig) :
    ∀ (steps : List (ℕ × ℚ × Bool)) (rec : CrisisRecord),
      rec.state = .crisis → (iterSteps cfg steps rec).state = .normal →
      ∃ l1 l2, steps = l1 ++ l2 ∧ (iterSteps cfg l1 rec).state = .elevated := by
  intro steps
  induction steps with
  | nil =>
      intro rec hc hn
      rw [iterSteps] at hn
      rw [hc] at hn
      cases hn
  | cons hd tl ih =>
      intro rec hc hn
      obtain ⟨now, score, urgent⟩ := hd
      rw [iterSteps] at hn
      rcases stepCrisis_from_crisis cfg now rec score urgent hc with h | h
      · obtain ⟨l1, l2, heq, hel⟩ :=
          ih (stepCrisis cfg now rec score urgent) h hn
        refine ⟨(now, score, urgent) :: l1, l2, by simp [heq], ?_⟩
        rw [iterSteps]
        exact hel
      · exact ⟨[(now, score, urgent)], tl, rfl, by rw [iterSteps, iterSteps]; exact h⟩

/-- Refreshing severity and description does not change which partitions an
alert is open for. -/
theorem isOpenFor_refresh (pk' pk : PartitionKey) (sev : Severity)
    (descr : String) (a : Alert) :
    isOpenFor pk' (if isOpenFor pk a then
        { a with severity := sev, description := descr } else a)
      = isOpenFor pk' a := by
  by_cases h : isOpenFor pk a
  · rw [if_pos h]
    rfl
  · rw [if_neg h]

/-- `openOrRefresh` keeps the per-partition open-alert count at one. -/
theorem openCount_openOrRefresh (s : AlertStore) (pk pk' : PartitionKey)
    (sev : Severity) (title descr : String) (loc : Coord) (now : ℕ)
    (h : openCount s pk' ≤ 1) :
    openCount (openOrRefresh s pk sev title descr loc now) pk' ≤ 1 := by
  unfold openOrRefresh openCount
  by_cases hany : s.alerts.any (isOpenFor pk)
  · rw [if_pos hany]
    dsimp only
    rw [List.countP_map]
    rw [List.countP_congr (fun a _ => ?_)]
    · exact h
    · show (isOpenFor pk' (if isOpenFor pk a then _ else a)) = true ↔ _
      rw [isOpenFor_refresh]
  · rw [if_neg hany]
    dsimp only
    rw [List.countP_append]
    have hzero : List.countP (isOpenFor pk) s.alerts = 0 :=
      List.countP_eq_zero.mpr (by
        intro a ha
        exact fun hopen =>
          hany (List.any_eq_true.mpr ⟨a, ha, hopen⟩))
    by_cases hpk : pk' = pk
    · subst hpk
      rw [hzero]
      simp [List.countP_cons, isOpenFor, isOpen]
    · have : List.countP (isOpenFor pk')
          [({ id := s.nextAlertId, title := title, description := descr
            , severity := sev, startTime := now, endTime := none
            , location := loc, type := "crisis", partitionKey := pk } : Alert)]
          = 0 := by
        simp [List.countP_cons, isOpenFor]
        intro hcontr
        exact absurd hcontr.symm hpk
      rw [this]
      simpa using h

/-- Closing can only reduce the number of open alerts of any partition. -/
theorem openCount_closeAlert (s : AlertStore) (pk pk' : PartitionKey)
    (now : ℕ) (h : openCount s pk' ≤ 1) :
    openCount (closeAlert s pk now) pk' ≤ 1 := by
  unfold closeAlert openCount
  dsimp only
  rw [List.countP_map]
  refine le_trans (List.countP_mono_left fun a _ hfa => ?_) h
  by_cases hf : isOpenFor pk a
  · exfalso
    revert hfa
    show ¬ (isOpenFor pk' (if isOpenFor pk a then _ else a) = true)
    rw [if_pos hf]
    simp [isOpenFor, isOpen]
  · revert hfa
    show isOpenFor pk' (if isOpenFor pk a then _ else a) = true → _
    rw [if_neg hf]
    exact id

/-- Invariant: every reachable alert store has at most one open alert per
partition. -/
theorem alertReachable_openCount {s : AlertStore} (hr : AlertReachable s) :
    ∀ pk, openCount s pk ≤ 1 := by
  induction hr with
  | init => intro pk; simp [openCount, emptyAlertStore]
  | openOrRefresh pk sev title descr loc now _ ih =>
      intro pk'
      exact openCount_openOrRefresh _ _ _ _ _ _ _ _ (ih pk')
  | close pk now _ ih =>
      intro pk'
      exact openCount_closeAlert _ _ _ _ (ih pk')

/-- After `openOrRefresh`, the partition has an open alert carrying the
requested severity. -/
theorem openOrRefresh_mem_open (s : AlertStore) (pk : PartitionKey)
    (sev : Severity) (title descr : String) (loc : Coord) (now : ℕ) :
    ∃ a ∈ (openOrRefresh s pk sev title descr loc now).alerts,
      a.partitionKey = pk ∧ isOpen a = true ∧ a.severity = sev := by
  unfold openOrRefresh
  by_cases hany : s.alerts.any (isOpenFor pk)
  · rw [if_pos hany]
    dsimp only
    obtain ⟨a, ha, hopen⟩ := List.any_eq_true.mp hany
    refine ⟨{ a with severity := sev, description := descr }, ?_, ?_, ?_, rfl⟩
    · have hfa : (fun x => if isOpenFor pk x then
              { x with severity := sev, description := descr } else x) a
          = { a with severity := sev, description := descr } := by
        dsimp only
        rw [if_pos hopen]
      rw [← hfa]
      exact List.mem_map_of_mem _ ha
    · have := hopen
      unfold isOpenFor at this
      exact beq_iff_eq.mp (Bool.and_elim_left this)
    · have := hopen
      unfold isOpenFor isOpen at this
      have h2 := Bool.and_elim_right this
      show Option.isNone _ = true
      exact h2
  · rw [if_neg hany]
    dsimp only
    refine ⟨_, List.mem_append_right _ (List.mem_singleton_self _), rfl, rfl, rfl⟩

/-- Membership in `currentAlerts`: exactly the stored open alerts of the
location's partition. -/
theorem mem_currentAlerts (s : AlertStore) (loc : Coord) (a : Alert) :
    a ∈ currentAlerts s loc ↔
      a ∈ s.alerts ∧ isOpenFor (partitionKeyOf loc.lat loc.lng) a = true := by
  unfold currentAlerts
  rw [(List.mergeSort_perm _ alertBefore).mem_iff, List.mem_filter]

/-- Re-evaluating a partition whose score has reached `T_elevated` while an
urgent-critical report is active leaves an open alert of severity high or
critical for that partition. -/
theorem reevaluatePartition_opens_alert (cfg : CrisisConfig) (now : ℕ)
    (st : SystemState) (pk : PartitionKey) (loc : Coord)
    (hs : cfg.tElevated ≤ partitionScore cfg now st.reports st.fires pk)
    (hu : hasUrgentCritical cfg now st.reports pk = true) :
    ∃ a ∈ (reevaluatePartition cfg now st pk loc).alertStore.alerts,
      a.partitionKey = pk ∧ isOpen a = true
      ∧ (a.severity = .high ∨ a.severity = .critical) := by
  unfold reevaluatePartition
  dsimp only
  rcases stepCrisis_active cfg now (st.crisis pk)
      (partitionScore cfg now st.reports st.fires pk)
      (hasUrgentCritical cfg now st.reports pk) hs hu with h | h
  · rw [h]
    dsimp only
    obtain ⟨a, ha, h1, h2, h3⟩ := openOrRefresh_mem_open st.alertStore pk
      Severity.high "Elevated hazard risk"
      "Elevated hazard conditions in your area" loc now
    exact ⟨a, ha, h1, h2, Or.inl h3⟩
  · rw [h]
    dsimp only
    obtain ⟨a, ha, h1, h2, h3⟩ := openOrRefresh_mem_open st.alertStore pk
      Severity.critical "Crisis alert" "Crisis conditions in your area"
      loc now
    exact ⟨a, ha, h1, h2, Or.inr h3⟩

/-- An open alert of the location's partition after re-evaluation is
returned by `currentAlerts` for that location. -/
theorem currentAlerts_after_reevaluate (cfg : CrisisConfig) (now : ℕ)
    (st : SystemState) (loc : Coord)
    (hs : cfg.tElevated ≤ partitionScore cfg now st.reports st.fires
        (partitionKeyOf loc.lat loc.lng))
    (hu : hasUrgentCritical cfg now st.reports
        (partitionKeyOf loc.lat loc.lng) = true) :
    ∃ a ∈ currentAlerts
        (reevaluatePartition cfg now st (partitionKeyOf loc.lat loc.lng)
          loc).alertStore loc,
      isOpen a = true ∧ (a.severity = .high ∨ a.severity = .critical) := by
  obtain ⟨a, ha, h1, h2, h3⟩ :=
    reevaluatePartition_opens_alert cfg now st _ loc hs hu
  refine ⟨a, ?_, h2, h3⟩
  rw [mem_currentAlerts]
  refine ⟨ha, ?_⟩
  simp [isOpenFor, h1, h2]

/-! ## The claims -/

/-- C1: a community report with severity `critical` and urgentLevel
`critical`, submitted at any location over any prior state, yields
`success = true` with a non-empty `reportId`, and — before the ingestion
call returns (the returned state is the one the response is paired with) —
`currentAlerts` for the same coordinates holds at least one open alert of
severity high or critical. -/
theorem critical_report_opens_alert (cfg : CrisisConfig) (now : ℕ)
    (st : SystemState) (inp : ReportInput) (loc : Coord)
    (hloc : inp.location = some loc)
    (hdesc : inp.description ≠ "") (htype : inp.hazardType ≠ "")
    (hsev : inp.severity = .critical)
    (hurg : inp.urgentLevel = some .critical)
    (hT : cfg.tElevated ≤ 8) (hret : 0 < cfg.retentionHours) :
    ∃ res st', submitReport cfg now inp st = .ok (res, st')
      ∧ res.success = true ∧ res.reportId ≠ ""
      ∧ ∃ a ∈ currentAlerts st'.alertStore loc,
          isOpen a = true ∧ (a.severity = .high ∨ a.severity = .critical) := by
  unfold submitReport
  rw [hloc]
  dsimp only
  rw [if_neg (not_or.mpr ⟨hdesc, htype⟩)]
  have hcs : isCriticalSignal inp = true := by
    simp [isCriticalSignal, hsev]
  rw [if_pos hcs]
  refine ⟨_, _, rfl, rfl, ?_, ?_⟩
  · intro h
    have h2 := congrArg String.length h
    rw [String.length_append] at h2
    have h7 : ("report-" : String).length = 7 := by decide
    have h0 : ("" : String).length = 0 := by decide
    rw [h7, h0] at h2
    omega
  · refine currentAlerts_after_reevaluate cfg now _ loc ?_ ?_
    · exact le_trans hT (partitionScore_ge_of_fresh_critical cfg now _ _ _ _
        (List.mem_append_right _ (List.mem_singleton_self _)) rfl hsev rfl
        hret)
    · simp [hasUrgentCritical, List.any_append, isActiveUrgent, hurg, hret]

/-- Witness for C1: the probe scenario — report at (34.052235,-118.243683)
with severity critical and urgentLevel critical against the initial state
under the default configuration. -/
theorem critical_report_opens_alert_witness :
    ∃ res st', submitReport defaultCrisisConfig 0
        { location := some ⟨34.052235, -118.243683⟩
        , description := "Large wildfire approaching homes"
        , hazardType := "fire-spotting", severity := .critical
        , urgentLevel := some .critical
        , reporterName := some "Emergency Reporter", reporterEmail := none }
        initialSystemState = .ok (res, st')
      ∧ res.success = true ∧ res.reportId ≠ ""
      ∧ ∃ a ∈ currentAlerts st'.alertStore ⟨34.052235, -118.243683⟩,
          isOpen a = true ∧ (a.severity = .high ∨ a.severity = .critical) :=
  critical_report_opens_alert defaultCrisisConfig 0 initialSystemState _ _
    rfl (by decide) (by decide) rfl rfl (by norm_num [defaultCrisisConfig])
    (by norm_num [defaultCrisisConfig])

/-- C2: a radius query returns exactly the stored entries whose haversine
distance from the center is at most the radius: the candidate-cell stage
followed by the exact haversine check agrees with the brute-force scan on
every collection, center and radius. -/
theorem radiusQuery_eq_bruteForceScan {α : Type} (locOf : α → Coord)
    (center : Coord) (radiusKm : ℝ) (entries : List α) :
    withinRadius locOf center radiusKm entries
      = bruteForceScan locOf center radiusKm entries := by
  ext e
  unfold withinRadius bruteForceScan cellIntersectsCircle
  simp only [Set.mem_setOf_eq]
  constructor
  · rintro ⟨hmem, -, hdist⟩
    exact ⟨hmem, hdist⟩
  · rintro ⟨hmem, hdist⟩
    exact ⟨hmem, ⟨locOf e, rfl, hdist⟩, hdist⟩

/-- C3: the crisis controller never moves from `crisis` to `normal` in one
transition, and any input trace that takes a partition from `crisis` to
`normal` passes through `elevated` at some prefix. -/
theorem crisis_never_directly_normal (cfg : CrisisConfig) (now : ℕ)
    (b : Option ℕ) (score : ℚ) (urgent : Bool)
    (steps : List (ℕ × ℚ × Bool)) (rec : CrisisRecord)
    (hc : rec.state = .crisis)
    (hn : (iterSteps cfg steps rec).state = .normal) :
    (stepCrisis cfg now ⟨.crisis, b⟩ score urgent).state ≠ .normal
    ∧ ∃ l1 l2, steps = l1 ++ l2
        ∧ (iterSteps cfg l1 rec).state = .elevated := by
  constructor
  · rcases stepCrisis_from_crisis cfg now ⟨.crisis, b⟩ score urgent rfl
      with h | h <;> rw [h] <;> decide
  · exact iterSteps_crisis_to_normal cfg steps rec hc hn

/-- Witness for C3: under the default configuration, a cooled-down trace
leaves `crisis` for `elevated` and only then reaches `normal`. -/
theorem crisis_never_directly_normal_witness :
    (stepCrisis defaultCrisisConfig 0 ⟨.crisis, none⟩ 0 false).state
        ≠ .normal
    ∧ ∃ l1 l2,
        ([((0 : ℕ), (0 : ℚ), false), (6, 0, false), (7, 0, false)]
          : List (ℕ × ℚ × Bool)) = l1 ++ l2
        ∧ (iterSteps defaultCrisisConfig l1 ⟨.crisis, none⟩).state
            = .elevated :=
  crisis_never_directly_normal defaultCrisisConfig 0 none 0 false _ _ rfl
    (by decide)

/-- C4: the confidence returned by the risk-fusion engine lies in [0,1] for
every oracle outcome, including timeout and error, where the heuristic
fallback produces the score. -/
theorem assess_confidence_in_unit_interval (inp : FusionInputs)
    (oracle : OracleOutcome) (loc : Coord) (analysisType : String) :
    0 ≤ (assess inp oracle loc analysisType).confidence
    ∧ (assess inp oracle loc analysisType).confidence ≤ 1 := by
  cases oracle <;>
    · unfold assess heuristicConfidence
      exact ⟨clamp01_nonneg _, clamp01_le_one _⟩

/-- C5: every reachable alert store holds at most one open alert per
partition; `currentAlerts` therefore never returns two open alerts of the
same partition, and `openOrRefresh` on a partition that already has an open
alert keeps the store's size unchanged (it updates rather than
duplicates). -/
theorem reachable_at_most_one_open_alert (s : AlertStore)
    (hr : AlertReachable s) (pk : PartitionKey) (loc : Coord)
    (sev : Severity) (title descr : String) (now : ℕ) :
    openCount s pk ≤ 1
    ∧ (currentAlerts s loc).countP (isOpenFor pk) ≤ 1
    ∧ (s.alerts.any (isOpenFor pk) = true →
        (openOrRefresh s pk sev title descr loc now).alerts.length
          = s.alerts.length) := by
  refine ⟨alertReachable_openCount hr pk, ?_, ?_⟩
  · unfold currentAlerts
    rw [(List.mergeSort_perm _ alertBefore).countP_eq, List.countP_filter]
    refine le_trans (List.countP_mono_left fun a _ h => ?_)
      (alertReachable_openCount hr pk)
    exact Bool.and_elim_left h
  · intro hany
    unfold openOrRefresh
    rw [if_pos hany]
    dsimp only
    rw [List.length_map]

/-- Witness for C5: a store reached by one `openOrRefresh` from the empty
store. -/
theorem reachable_at_most_one_open_alert_witness :
    openCount demoStore demoPk ≤ 1
    ∧ (currentAlerts demoStore demoLoc).countP (isOpenFor demoPk) ≤ 1
    ∧ (demoStore.alerts.any (isOpenFor demoPk) = true →
        (openOrRefresh demoStore demoPk .critical "t2" "d2" demoLoc 1).alerts.length
          = demoStore.alerts.length) :=
  reachable_at_most_one_open_alert demoStore
    (AlertReachable.openOrRefresh _ _ _ _ _ _ AlertReachable.init)
    demoPk demoLoc .critical "t2" "d2" 1

/-- C6: `GET /weather/current` with a missing coordinate fails with
`MissingParameterError` and leaves the state untouched; with both
coordinates present it never fails for that reason. -/
theorem weather_missing_parameter
    (provider : Coord → Option WeatherSnapshot) (now : ℕ)
    (mlng : Option ℚ) (la ln : ℚ) (st : WeatherState) :
    currentWeather provider now none mlng st
        = (.error .missingParameter, st)
    ∧ currentWeather provider now (some la) none st
        = (.error .missingParameter, st)
    ∧ (currentWeather provider now (some la) (some ln) st).1
        ≠ Except.error WeatherError.missingParameter := by
  refine ⟨rfl, rfl, ?_⟩
  unfold currentWeather
  dsimp only
  cases hcache : st.cache (partitionKeyOf la ln) with
  | none => cases hp : provider ⟨la, ln⟩ <;> simp
  | some pair =>
      obtain ⟨snap, fetchedAt⟩ := pair
      by_cases hfresh : now - fetchedAt < weatherExpirySeconds
      · simp [hfresh]
      · cases hp : provider ⟨la, ln⟩ <;> simp [hfresh]

/-- C7: `partitionKeyOf` is deterministic — identical inputs always yield
the identical key. -/
theorem partitionKeyOf_deterministic (lat lng lat' lng' : ℚ)
    (h1 : lat = lat') (h2 : lng = lng') :
    partitionKeyOf lat lng = partitionKeyOf lat' lng' := by
  rw [h1, h2]

/-- Witness for C7 at the probe's coordinates. -/
theorem partitionKeyOf_deterministic_witness :
    partitionKeyOf (34.052235 : ℚ) (-118.243683 : ℚ)
      = partitionKeyOf (34.052235 : ℚ) (-118.243683 : ℚ) :=
  partitionKeyOf_deterministic _ _ _ _ rfl rfl

/-- C8: `byState` returns exactly the stored fire detections whose state
field equals the requested name case-insensitively. -/
theorem byState_mem_iff (store : List FireDetection) (stateName : String)
    (f : FireDetection) :
    f ∈ byState store stateName
      ↔ f ∈ store ∧ f.state.toLower = stateName.toLower := by
  simp [byState, List.mem_filter]

/-- C9: in the abstract time model the engine waits on the oracle for at
most its configured timeout, so the analysis responds within the configured
5-second bound whatever the oracle's latency, and a timed-out oracle still
yields a successful (fallback) assessment. -/
theorem aiAnalysis_latency_bounded (oracleLatencySeconds : ℚ)
    (inp : FusionInputs) (loc : Coord) (analysisType : String) :
    assessLatency defaultFusionConfig oracleLatencySeconds
        ≤ defaultFusionConfig.latencyBoundSeconds
    ∧ defaultFusionConfig.latencyBoundSeconds = 5
    ∧ (assess inp .timeout loc analysisType).success = true := by
  refine ⟨?_, rfl, rfl⟩
  unfold assessLatency defaultFusionConfig
  dsimp only
  exact le_trans (min_le_right _ _) (by norm_num)

/-- C10: a successful weather response echoes the request coordinates in
its metadata: mapping the successful result to its `userLocation` is the
same as mapping it to the requested coordinates. -/
theorem weather_echoes_userLocation
    (provider : Coord → Option WeatherSnapshot) (now : ℕ) (la ln : ℚ)
    (st : WeatherState) :
    (currentWeather provider now (some la) (some ln) st).1.map
        (fun r => r.userLocation)
      = (currentWeather provider now (some la) (some ln) st).1.map
        (fun _ => (⟨la, ln⟩ : Coord)) := by
  unfold currentWeather
  dsimp only
  cases hcache : st.cache (partitionKeyOf la ln) with
  | none => cases hp : provider ⟨la, ln⟩ <;> simp [Except.map]
  | some pair =>
      obtain ⟨snap, fetchedAt⟩ := pair
      by_cases hfresh : now - fetchedAt < weatherExpirySeconds
      · simp [hfresh, Except.map]
      · cases hp : provider ⟨la, ln⟩ <;> simp [hfresh, Except.map]
